import Mathlib

/-!
Shallow embedding of the polygon-data fetch pipeline.

The definitions below are translated from the Rust sources of the
repository: `src/lib/src/types.rs`, `src/lib/src/client.rs`,
`src/lib/src/service.rs` and `src/lib/src/config.rs`.

Modelling conventions:
* `chrono::DateTime<Utc>` values are modelled by their millisecond
  timestamps (`Int`), matching the precision actually used by the client
  (`timestamp_millis`) and the CLI (midnight-aligned dates).
* `rust_decimal::Decimal` is modelled as a mantissa/scale pair; its exact
  textual rendering is irrelevant to the properties below, only the
  presence and order of columns matter.
* Rust `i64`/`u32` arithmetic in `num_chunks` stays far below overflow for
  the values involved, so `Int`/`Nat` are used directly; Rust integer
  division truncates toward zero, which is `Int.tdiv`.
* The network is modelled by a fetch script: a function from the call
  index to the result the fetcher produces for that call.  The cursor
  (`next_url`) each call was issued with is recorded so that claims about
  which cursors were used can be stated.
* The file system is modelled by the row sequence of the single output
  file a pipeline writes, together with the `Option` of its prior
  contents (`none` = the file did not exist yet).
-/

namespace PolygonData

/-- The `Timespan` enum of `types.rs` (closed enumeration of granularities,
default `Minute`). -/
inductive Timespan where
| Second
| Minute
| Hour
| Day
| Week
| Month
| Quarter
| Year
deriving DecidableEq

/-- The strum `Display` implementation of `Timespan`
(`serialize_all = "lowercase"`): the lowercase variant name. -/
def Timespan.display : Timespan → String
| .Second => "second"
| .Minute => "minute"
| .Hour => "hour"
| .Day => "day"
| .Week => "week"
| .Month => "month"
| .Quarter => "quarter"
| .Year => "year"

/-- Model of `rust_decimal::Decimal`: exact base-10 value as
mantissa times ten to the minus scale.  The properties below only depend
on where a decimal column appears, never on its digits. -/
structure Decimal where
mantissa : Int
scale : Nat
deriving DecidableEq

/-- Rendering of a `Decimal` for a CSV cell (stands in for the
`rust_decimal` display form; the claims never inspect the digits). -/
def Decimal.render (d : Decimal) : String :=
toString d.mantissa ++ "e" ++ toString d.scale

/-- Serde serialization of a `bool` into a CSV cell. -/
def boolCell (b : Bool) : String :=
if b then "true" else "false"

/-- The `AggregateRecord` struct of `types.rs`: one candle.
`transactions`, `otc` and `vwap` carry
`#[serde(skip_serializing_if = "Option::is_none")]`. -/
structure AggregateRecord where
timestamp : Int
open_ : Decimal
high : Decimal
low : Decimal
close : Decimal
volume : Decimal
transactions : Option Nat
otc : Option Bool
vwap : Option Decimal
deriving DecidableEq

/-- Serde serialization of one `AggregateRecord` through the csv writer
built with `WriterBuilder::new().flexible(true)`: fields are emitted in
declaration order, and a field annotated with
`skip_serializing_if = "Option::is_none"` contributes no column at all
when it is `none`. -/
def serializeRecord (r : AggregateRecord) : List String :=
[toString r.timestamp, r.open_.render, r.high.render, r.low.render,
 r.close.render, r.volume.render]
++ (match r.transactions with | some n => [toString n] | none => [])
++ (match r.otc with | some b => [boolCell b] | none => [])
++ (match r.vwap with | some d => [d.render] | none => [])

/-- The `AggregateRequest` struct of `types.rs`.  `from` and `to` are
millisecond timestamps (see the module docstring); `from` is a Lean
keyword, hence the underscore. -/
structure AggregateRequest where
ticker : String
timespan : Timespan
from_ : Int
to_ : Int
next_url : Option String
limit : Nat
deriving DecidableEq

/-- The error enum generated by `derive_builder` for
`AggregateRequestBuilder`.  `ValidationError` exists in the generated type
but no `build_fn(validate = ...)` attribute is present in `types.rs`, so
the generated `build` never produces it. -/
inductive AggregateRequestBuilderError where
| UninitializedField (field : String)
| ValidationError (msg : String)
deriving DecidableEq

/-- The `AggregateRequestBuilder` generated by `#[derive(Builder)]` on
`AggregateRequest`: every field starts unset; `timespan` and `next_url`
carry `#[builder(default)]`. -/
structure AggregateRequestBuilder where
ticker : Option String
timespan : Option Timespan
from_ : Option Int
to_ : Option Int
next_url : Option (Option String)
limit : Option Nat
deriving DecidableEq

/-- The builder with no setter called yet (`AggregateRequestBuilder::default()`). -/
def AggregateRequestBuilder.default : AggregateRequestBuilder :=
⟨none, none, none, none, none, none⟩

/-- The `build` method generated by `derive_builder`: each field without a
`#[builder(default)]` yields `UninitializedField` when unset (checked in
declaration order); `timespan` defaults to `Minute` and `next_url` to
`None`.  No validator is configured, so no other check happens. -/
def AggregateRequestBuilder.build (b : AggregateRequestBuilder) :
    Except AggregateRequestBuilderError AggregateRequest :=
match b.ticker with
| none => .error (.UninitializedField "ticker")
| some ticker =>
  match b.from_ with
  | none => .error (.UninitializedField "from")
  | some f =>
    match b.to_ with
    | none => .error (.UninitializedField "to")
    | some t =>
      match b.limit with
      | none => .error (.UninitializedField "limit")
      | some limit =>
        .ok { ticker := ticker, timespan := b.timespan.getD .Minute,
              from_ := f, to_ := t, next_url := b.next_url.getD none,
              limit := limit }

/-- The builder chain used by the spec operation
`build(symbol, granularity, range_start, range_end, page_limit)` and by
`Service::fetch_data`: all five setters are applied, then `build`. -/
def buildRequest (ticker : String) (timespan : Timespan) (f t : Int)
    (limit : Nat) : Except AggregateRequestBuilderError AggregateRequest :=
AggregateRequestBuilder.build
  { ticker := some ticker, timespan := some timespan, from_ := some f,
    to_ := some t, next_url := none, limit := some limit }

/-- The `AggregateResponse` struct of `types.rs`: one page envelope. -/
structure AggregateResponse where
ticker : String
adjusted : Bool
query_count : Int
request_id : String
results_count : Nat
status : String
results : List AggregateRecord
next_url : Option String
deriving DecidableEq

/-- The `FileIo` error enum of `error.rs`. -/
inductive FileIo where
| Csv (msg : String)
| FileWrite (msg : String)
| CreateFile (msg : String)
deriving DecidableEq

/-- The `Error` enum of `error.rs`. -/
inductive Error where
| Init (msg : String)
| File (e : FileIo)
| InvalidUrl (msg : String)
| SendRequest (msg : String)
| Deserialization (msg : String)
| UnexpectedStatus (code : Nat)
| Serde (msg : String)
| InvalidRequest (e : AggregateRequestBuilderError)
deriving DecidableEq

/-- `BASE_URL` of `client.rs`. -/
def BASE_URL : String := "https://api.polygon.io"

/-- `MULIPLIER` of `client.rs` (the typo is the source constant name). -/
def MULIPLIER : Nat := 1

/-- The URL `Client::get_aggregate` targets, from `client.rs`: the
continuation URL verbatim when `next_url` is set, otherwise the format
string over `BASE_URL`, ticker, `MULIPLIER`, timespan display form, the
millisecond timestamps of `from` and `to`, and the limit. -/
def get_aggregate_url (request : AggregateRequest) : String :=
match request.next_url with
| some url => url
| none =>
    BASE_URL ++ "/v2/aggs/ticker/" ++ request.ticker ++ "/range/" ++
    toString MULIPLIER ++ "/" ++ request.timespan.display ++ "/" ++
    toString request.from_ ++ "/" ++ toString request.to_ ++ "?limit=" ++
    toString request.limit

/-- URL form the spec describes for a first page:
GET base, then /v2/aggs/ticker/, the symbol, /range/1/, the granularity,
the millisecond timestamps of the range bounds, and ?limit=N. -/
def specFirstPageUrl (symbol : String) (granularity : Timespan)
    (fromMillis toMillis : Int) (n : Nat) : String :=
"https://api.polygon.io" ++ "/v2/aggs/ticker/" ++ symbol ++ "/range/" ++
"1" ++ "/" ++ granularity.display ++ "/" ++ toString fromMillis ++ "/" ++
toString toMillis ++ "?limit=" ++ toString n

/-- A scripted fetcher behaviour: the result `Client::get_aggregate`
produces for the n-th call (0-based) of one pipeline. -/
def FetchScript : Type := Nat → Except Error AggregateResponse

/-- The state threaded through `stream::unfold` in
`Service::get_aggregates`: the (possibly cursor-substituted) request, the
pending `next_url`, and the `final_page` flag.  Initial value in the
source: `(request, None, false)`. -/
structure UnfoldState where
request : AggregateRequest
next_url : Option String
final_page : Bool
deriving DecidableEq

/-- The cursor substitution at the top of the unfold closure: when the
state carries a pending `next_url`, it is written into the request before
the fetch. -/
def nextRequest (s : UnfoldState) : AggregateRequest :=
match s.next_url with
| some url => { s.request with next_url := some url }
| none => s.request

/-- One poll of the stream built by `Service::get_aggregates`
(lines 92-122 of `service.rs`).  `none` means the stream is closed
(`final_page` was set).  Otherwise the emitted element, the successor
state, and the cursor (`next_url` of the request actually fetched) are
returned; `k` is the call index consulted in the fetch script. -/
def getAggregatesStep (fetch : FetchScript) (k : Nat) (s : UnfoldState) :
    Option ((Except Error (List AggregateRecord)) × UnfoldState ×
            Option String) :=
if s.final_page then
  none
else
  let request := nextRequest s
  match fetch k with
  | .ok response =>
    if response.next_url.isSome then
      some (.ok response.results,
            ⟨request, response.next_url, false⟩, request.next_url)
    else
      some (.ok response.results,
            ⟨request, response.next_url, true⟩, request.next_url)
  | .error e => some (.error e, ⟨request, none, false⟩, request.next_url)

/-- Polling the `get_aggregates` stream up to `polls` times from state `s`
with call index `k`: the list of yielded elements and the list of cursors
the fetcher was called with, in order. -/
def runGetAggregates (fetch : FetchScript) :
    UnfoldState → Nat → Nat →
    List (Except Error (List AggregateRecord)) × List (Option String)
| _, _, 0 => ([], [])
| s, k, polls + 1 =>
  match getAggregatesStep fetch k s with
  | none => ([], [])
  | some (item, s2, cursor) =>
    let rest := runGetAggregates fetch s2 (k + 1) polls
    (item :: rest.1, cursor :: rest.2)

/-- Observable outcome of the consumption loop of
`Service::save_aggregates_to_disk`: the rows appended to the CSV writer,
the number of `flush` calls, the number of `progress_bar.inc(1)` calls,
the cursors the fetcher was called with, and the returned result. -/
structure SaveResult where
rows : List (List String)
flushes : Nat
progress : Nat
calls : List (Option String)
outcome : Except Error Unit

/-- The `while let Some(result) = stream.next().await` loop of
`Service::save_aggregates_to_disk` (lines 154-175 of `service.rs`),
driven for at most `fuel` iterations: an empty successful page only logs
a warning, a non-empty one serializes every record and flushes, an error
is returned immediately (before the progress increment); the progress
counter is incremented once per non-error page. -/
def saveLoop (fetch : FetchScript) : UnfoldState → Nat → Nat → SaveResult
| _, _, 0 => ⟨[], 0, 0, [], .ok ()⟩
| s, k, fuel + 1 =>
  match getAggregatesStep fetch k s with
  | none => ⟨[], 0, 0, [], .ok ()⟩
  | some (.ok records, s2, cursor) =>
    let rest := saveLoop fetch s2 (k + 1) fuel
    if records.isEmpty then
      ⟨rest.rows, rest.flushes, rest.progress + 1, cursor :: rest.calls,
       rest.outcome⟩
    else
      ⟨records.map serializeRecord ++ rest.rows, rest.flushes + 1,
       rest.progress + 1, cursor :: rest.calls, rest.outcome⟩
  | some (.error e, _, cursor) => ⟨[], 0, 0, [cursor], .error e⟩

/-- The file path `Service::save_aggregates_to_disk` builds:
`config.output_dir.join(format of ticker slash timespan dot csv)`. -/
def filePath (output_dir ticker : String) (timespan : Timespan) : String :=
output_dir ++ "/" ++ ticker ++ "/" ++ timespan.display ++ ".csv"

/-- `create_or_open_file` of `service.rs`: `OpenOptions` with
`create(true).append(true)` — an existing file keeps its contents and the
write position is its end; a missing file starts empty. -/
def create_or_open_file (existing : Option (List (List String))) :
    List (List String) :=
match existing with
| some rows => rows
| none => []

/-- `Service::save_aggregates_to_disk` as a whole, over the modelled file
system: the file contents after the run (prior contents, then every row
the loop appended, in order) together with the loop outcome. -/
def save_aggregates_to_disk (existing : Option (List (List String)))
    (fetch : FetchScript) (request : AggregateRequest) (fuel : Nat) :
    List (List String) × Except Error Unit :=
let r := saveLoop fetch ⟨request, none, false⟩ 0 fuel
(create_or_open_file existing ++ r.rows, r.outcome)

/-- The `Config` struct of `config.rs` (timestamps as milliseconds). -/
structure Config where
tickers : List String
timespan : Timespan
output_dir : String
from_ : Int
to_ : Int
limit : Nat

/-- `CONCURRENCY_LIMIT` of `service.rs`. -/
def CONCURRENCY_LIMIT : Nat := 10

/-- The request construction inside `Service::fetch_data`: the builder
default with the `timespan`, `ticker`, `from`, `to` and `limit` setters
applied. -/
def buildFetchRequest (cfg : Config) (ticker : String) :
    Except AggregateRequestBuilderError AggregateRequest :=
AggregateRequestBuilder.build
  { ticker := some ticker, timespan := some cfg.timespan,
    from_ := some cfg.from_, to_ := some cfg.to_, next_url := none,
    limit := some cfg.limit }

/-- The body `Service::fetch_data` runs for one ticker: a build error is
logged and the ticker skipped; otherwise `save_aggregates_to_disk` runs
and its error, if any, is logged and discarded (`let _result = ...`).
The returned pair records the ticker and the swallowed error, if any —
no error propagates out. -/
def processTicker (fetchOf : String → FetchScript) (cfg : Config)
    (fuel : Nat) (ticker : String) : String × Option Error :=
match buildFetchRequest cfg ticker with
| .error e => (ticker, some (.InvalidRequest e))
| .ok request =>
  match (saveLoop (fetchOf ticker) ⟨request, none, false⟩ 0 fuel).outcome with
  | .ok _ => (ticker, none)
  | .error e => (ticker, some e)

/-- `Service::fetch_data` over all configured tickers.  Each ticker is
fetched with its own script (`fetchOf ticker`); per-ticker errors are
swallowed inside `processTicker`, so the run always produces one entry
per ticker and never fails as a whole. -/
def fetch_data (fetchOf : String → FetchScript) (cfg : Config)
    (fuel : Nat) : List (String × Option Error) :=
cfg.tickers.map (processTicker fetchOf cfg fuel)

/-- `Duration::num_seconds` of chrono on an exact millisecond duration:
truncation toward zero. -/
def duration_num_seconds (ms : Int) : Int := ms.tdiv 1000

/-- `Duration::num_minutes` of chrono: `num_seconds` divided by 60,
truncating toward zero. -/
def duration_num_minutes (ms : Int) : Int :=
(duration_num_seconds ms).tdiv 60

/-- `Duration::num_hours` of chrono: `num_seconds` divided by 3600,
truncating toward zero. -/
def duration_num_hours (ms : Int) : Int :=
(duration_num_seconds ms).tdiv 3600

/-- `Duration::num_days` of chrono: `num_seconds` divided by 86400,
truncating toward zero. -/
def duration_num_days (ms : Int) : Int :=
(duration_num_seconds ms).tdiv 86400

/-- `Duration::num_weeks` of chrono: `num_days` divided by 7. -/
def duration_num_weeks (ms : Int) : Int :=
(duration_num_days ms).tdiv 7

/-- `num_chunks` of `service.rs` (lines 183-206): the interval count of
the duration for the given timespan — with the documented week-based
approximations for month and quarter and the day-based one for year —
divided by the limit.  Rust `i64` division truncates toward zero. -/
def num_chunks (timespan : Timespan) (from_ to_ : Int) (limit : Nat) : Int :=
let duration := to_ - from_
let num_intervals :=
  match timespan with
  | .Second => duration_num_seconds duration
  | .Minute => duration_num_minutes duration
  | .Hour => duration_num_hours duration
  | .Day => duration_num_days duration
  | .Week => duration_num_weeks duration
  | .Month => (duration_num_weeks duration).tdiv 4
  | .Quarter => (duration_num_weeks duration).tdiv 12
  | .Year => (duration_num_days duration).tdiv 365
num_intervals.tdiv (limit : Int)

/-- Interval count as the spec words it: the number of granularity-sized
intervals in the range, computed directly from the millisecond duration
(seconds, minutes, hours, days, weeks), with week-count divided by 4 for
month, week-count divided by 12 for quarter, and day-count divided by 365
for year. -/
def spec_interval_count (timespan : Timespan) (diff_ms : Int) : Int :=
match timespan with
| .Second => diff_ms.tdiv 1000
| .Minute => diff_ms.tdiv 60000
| .Hour => diff_ms.tdiv 3600000
| .Day => diff_ms.tdiv 86400000
| .Week => diff_ms.tdiv 604800000
| .Month => (diff_ms.tdiv 604800000).tdiv 4
| .Quarter => (diff_ms.tdiv 604800000).tdiv 12
| .Year => (diff_ms.tdiv 86400000).tdiv 365

/-- Page estimate as the spec words it: the interval count of
range_end minus range_start, divided by the page limit with integer
division. -/
def spec_page_estimate (timespan : Timespan) (range_start range_end : Int)
    (page_limit : Nat) : Int :=
(spec_interval_count timespan (range_end - range_start)).tdiv
  (page_limit : Int)

/-! ## Helper lemmas about the pagination stream -/

/-- A stream whose state has `final_page` set yields nothing and makes no
further call, however often it is polled. -/
theorem runGetAggregates_closed (fetch : FetchScript) (s : UnfoldState)
    (k polls : Nat) (h : s.final_page = true) :
    runGetAggregates fetch s k polls = ([], []) := by
cases polls with
| zero => rfl
| succ p => simp [runGetAggregates, getAggregatesStep, h]

/-- Unfolding equation for one poll of the stream. -/
theorem runGetAggregates_succ (fetch : FetchScript) (s : UnfoldState)
    (k polls : Nat) :
    runGetAggregates fetch s k (polls + 1) =
      match getAggregatesStep fetch k s with
      | none => ([], [])
      | some (item, s2, cursor) =>
        let rest := runGetAggregates fetch s2 (k + 1) polls
        (item :: rest.1, cursor :: rest.2) := rfl

/-- C1: with a scripted fetcher returning page P1 with continuation C1,
then P2 with continuation C2, then P3 with no continuation, the stream of
`get_aggregates` yields exactly the three record lists in order and then
nothing further, and the fetcher is called exactly three times, with
cursors none, C1, C2. -/
theorem get_aggregates_three_pages (fetch : FetchScript)
    (req : AggregateRequest) (p1 p2 p3 : AggregateResponse)
    (c1 c2 : String) (polls : Nat)
    (hreq : req.next_url = none)
    (h0 : fetch 0 = .ok p1) (hc1 : p1.next_url = some c1)
    (h1 : fetch 1 = .ok p2) (hc2 : p2.next_url = some c2)
    (h2 : fetch 2 = .ok p3) (hc3 : p3.next_url = none)
    (hpolls : 3 ≤ polls) :
    runGetAggregates fetch ⟨req, none, false⟩ 0 polls =
      ([.ok p1.results, .ok p2.results, .ok p3.results],
       [none, some c1, some c2]) := by
obtain ⟨m, rfl⟩ : ∃ m, polls = m + 3 := ⟨polls - 3, by omega⟩
rw [show m + 3 = (m + 2) + 1 from rfl, runGetAggregates_succ]
simp only [getAggregatesStep, nextRequest, Bool.false_eq_true, if_false,
  h0, hc1, Option.isSome_some, if_true]
rw [show m + 2 = (m + 1) + 1 from rfl, runGetAggregates_succ]
simp only [getAggregatesStep, nextRequest, Bool.false_eq_true, if_false,
  h1, hc2, Option.isSome_some, if_true]
rw [show m + 1 = m + 1 from rfl, runGetAggregates_succ]
simp only [getAggregatesStep, nextRequest, Bool.false_eq_true, if_false,
  h2, hc3, Option.isSome_none, Bool.false_eq_true]
rw [runGetAggregates_closed fetch _ _ _ rfl]
simp [hreq]

/-- A concrete candle used by the examples below. -/
def exRecord : AggregateRecord :=
⟨1700000000000, ⟨18951, 2⟩, ⟨19000, 2⟩, ⟨18900, 2⟩, ⟨18975, 2⟩,
 ⟨1000000, 0⟩, some 42, none, some ⟨18960, 2⟩⟩

/-- Concrete page 1 for the C1 example: continuation set. -/
def c1Page1 : AggregateResponse :=
⟨"AAPL", true, 1, "req-1", 1, "OK", [exRecord], some "https://next/1"⟩

/-- Concrete page 2 for the C1 example: continuation set. -/
def c1Page2 : AggregateResponse :=
⟨"AAPL", true, 1, "req-2", 1, "OK", [exRecord], some "https://next/2"⟩

/-- Concrete page 3 for the C1 example: no continuation. -/
def c1Page3 : AggregateResponse :=
⟨"AAPL", true, 1, "req-3", 1, "OK", [exRecord], none⟩

/-- Concrete scripted fetcher for the C1 example. -/
def c1Fetch : FetchScript := fun k =>
if k = 0 then .ok c1Page1 else if k = 1 then .ok c1Page2 else .ok c1Page3

/-- A concrete request (no continuation set, as built by `fetch_data`). -/
def exRequest : AggregateRequest :=
⟨"AAPL", .Minute, 1700000000000, 1700086400000, none, 100⟩

/-- Witness for C1: the scripted three-page behaviour evaluated at a
concrete fetcher, request and poll budget. -/
theorem get_aggregates_three_pages_witness :
    exRequest.next_url = none ∧ c1Fetch 0 = .ok c1Page1 ∧
    c1Page1.next_url = some "https://next/1" ∧ c1Fetch 1 = .ok c1Page2 ∧
    c1Page2.next_url = some "https://next/2" ∧ c1Fetch 2 = .ok c1Page3 ∧
    c1Page3.next_url = none ∧ 3 ≤ 5 ∧
    runGetAggregates c1Fetch ⟨exRequest, none, false⟩ 0 5 =
      ([.ok c1Page1.results, .ok c1Page2.results, .ok c1Page3.results],
       [none, some "https://next/1", some "https://next/2"]) :=
⟨rfl, rfl, rfl, rfl, rfl, rfl, rfl, by norm_num,
 get_aggregates_three_pages c1Fetch exRequest c1Page1 c1Page2 c1Page3
   "https://next/1" "https://next/2" 5 rfl rfl rfl rfl rfl rfl rfl
   (by norm_num)⟩

/-! ## C2: behaviour of the stream and of the consuming loop on a fetch
failure at page 2 -/

/-- Concrete page 1 for the C2 example: continuation set. -/
def c2Page1 : AggregateResponse :=
⟨"AAPL", true, 1, "req-1", 1, "OK", [exRecord], some "https://next/1"⟩

/-- Concrete final page for the C2 example. -/
def c2Page3 : AggregateResponse :=
⟨"AAPL", true, 1, "req-3", 1, "OK", [exRecord], none⟩

/-- Concrete scripted fetcher for the C2 example: page 1 succeeds, the
second call fails, a third call would succeed again. -/
def c2Fetch : FetchScript := fun k =>
if k = 0 then .ok c2Page1
else if k = 1 then .error (.UnexpectedStatus 500)
else .ok c2Page3

/-- C2 counterexample: after the error emitted for the failed second
call, the stream of `get_aggregates` is not terminal — the unfold state
after an error keeps `final_page = false`, so a third poll calls the
fetcher a third time (with the page-1 cursor again) and yields a further
element. -/
theorem stream_continues_after_error_cex :
    runGetAggregates c2Fetch ⟨exRequest, none, false⟩ 0 3 =
      ([.ok c2Page1.results, .error (.UnexpectedStatus 500),
        .ok c2Page3.results],
       [none, some "https://next/1", some "https://next/1"]) := rfl

/-- Unfolding equation for one iteration of the save loop. -/
theorem saveLoop_succ (fetch : FetchScript) (s : UnfoldState)
    (k fuel : Nat) :
    saveLoop fetch s k (fuel + 1) =
      match getAggregatesStep fetch k s with
      | none => ⟨[], 0, 0, [], .ok ()⟩
      | some (.ok records, s2, cursor) =>
        let rest := saveLoop fetch s2 (k + 1) fuel
        if records.isEmpty then
          ⟨rest.rows, rest.flushes, rest.progress + 1, cursor :: rest.calls,
           rest.outcome⟩
        else
          ⟨records.map serializeRecord ++ rest.rows, rest.flushes + 1,
           rest.progress + 1, cursor :: rest.calls, rest.outcome⟩
      | some (.error e, _, cursor) => ⟨[], 0, 0, [cursor], .error e⟩ := rfl

/-- C2 amended: as the stream is consumed by `save_aggregates_to_disk`,
which returns at the first error without polling further, the observed
behaviour on a failure at page 2 is: the records of page 1 are persisted,
the error is the outcome, the fetcher is called exactly twice (with
cursors none and C1), and the progress counter advances only for page 1. -/
theorem save_pipeline_stops_at_error (fetch : FetchScript)
    (req : AggregateRequest) (p1 : AggregateResponse) (c1 : String)
    (e : Error) (fuel : Nat)
    (hreq : req.next_url = none)
    (h0 : fetch 0 = .ok p1) (hc1 : p1.next_url = some c1)
    (hne : p1.results ≠ [])
    (h1 : fetch 1 = .error e)
    (hfuel : 2 ≤ fuel) :
    saveLoop fetch ⟨req, none, false⟩ 0 fuel =
      ⟨p1.results.map serializeRecord, 1, 1, [none, some c1],
       .error e⟩ := by
obtain ⟨m, rfl⟩ : ∃ m, fuel = m + 2 := ⟨fuel - 2, by omega⟩
rw [show m + 2 = (m + 1) + 1 from rfl, saveLoop_succ]
simp only [getAggregatesStep, nextRequest, Bool.false_eq_true, if_false,
  h0, hc1, Option.isSome_some, if_true]
rw [saveLoop_succ]
simp only [getAggregatesStep, nextRequest, Bool.false_eq_true, if_false,
  h1]
have hemp : p1.results.isEmpty = false := by
  cases hr : p1.results with
  | nil => exact absurd hr hne
  | cons a l => rfl
simp [hemp, hreq]

/-- Witness for the amended C2 theorem at a concrete fetcher, request
and fuel. -/
theorem save_pipeline_stops_at_error_witness :
    exRequest.next_url = none ∧ c2Fetch 0 = .ok c2Page1 ∧
    c2Page1.next_url = some "https://next/1" ∧ c2Page1.results ≠ [] ∧
    c2Fetch 1 = .error (.UnexpectedStatus 500) ∧ 2 ≤ 4 ∧
    saveLoop c2Fetch ⟨exRequest, none, false⟩ 0 4 =
      ⟨c2Page1.results.map serializeRecord, 1, 1,
       [none, some "https://next/1"], .error (.UnexpectedStatus 500)⟩ :=
⟨rfl, rfl, rfl, by simp [c2Page1], rfl, by norm_num,
 save_pipeline_stops_at_error c2Fetch exRequest c2Page1 "https://next/1"
   (.UnexpectedStatus 500) 4 rfl rfl rfl (by simp [c2Page1]) rfl
   (by norm_num)⟩

/-! ## C3: request construction and validation -/

/-- C3 counterexample: the generated builder performs none of the claimed
validations — building with an empty symbol, with an inverted range
(end 0 before start 86400000), and with page limit 0 all succeed. -/
theorem build_accepts_invalid_inputs_cex :
    buildRequest "" .Minute 0 86400000 100 =
      .ok ⟨"", .Minute, 0, 86400000, none, 100⟩ ∧
    buildRequest "AAPL" .Day 86400000 0 100 =
      .ok ⟨"AAPL", .Day, 86400000, 0, none, 100⟩ ∧
    buildRequest "AAPL" .Minute 0 86400000 0 =
      .ok ⟨"AAPL", .Minute, 0, 86400000, none, 0⟩ :=
⟨rfl, rfl, rfl⟩

/-- C3 amended: `AggregateRequestBuilder::build` never validates field
values — with all five setters applied it succeeds for every symbol,
granularity, range and page limit (empty symbol, inverted range and zero
limit included), and it fails only when a required field was never set,
with an `UninitializedField` error. -/
theorem build_performs_no_validation (ticker : String) (ts : Timespan)
    (f t : Int) (limit : Nat) :
    buildRequest ticker ts f t limit = .ok ⟨ticker, ts, f, t, none, limit⟩ ∧
    AggregateRequestBuilder.default.build =
      .error (.UninitializedField "ticker") :=
⟨rfl, rfl⟩

/-! ## C4: the URL targeted by the page fetcher -/

/-- C4: `Client::get_aggregate` targets the continuation URL verbatim
when one is set, and otherwise the URL synthesized from the base, the
symbol, multiplier 1, the granularity, the millisecond range bounds and
the page limit, exactly as the spec writes it. -/
theorem get_aggregate_url_matches_spec (r : AggregateRequest) :
    get_aggregate_url r =
      match r.next_url with
      | some url => url
      | none =>
          specFirstPageUrl r.ticker r.timespan r.from_ r.to_ r.limit := by
cases h : r.next_url with
| some u => simp [get_aggregate_url, h]
| none =>
  simp only [get_aggregate_url, specFirstPageUrl, h]
  rfl

/-! ## C5: row serialization of one record -/

/-- C5: each record serializes to one row holding, in order, timestamp,
open, high, low, close, volume, then one column for each of
transactions, otc, vwap exactly when that field is set — an unset
optional field contributes no column at all, so the row length is six
plus the number of set optional fields. -/
theorem serialize_record_row (r : AggregateRecord) :
    serializeRecord r =
      [toString r.timestamp, r.open_.render, r.high.render, r.low.render,
       r.close.render, r.volume.render]
      ++ (r.transactions.map (fun n => toString n)).toList
      ++ (r.otc.map boolCell).toList
      ++ (r.vwap.map Decimal.render).toList ∧
    (serializeRecord r).length =
      6 + (if r.transactions.isSome then 1 else 0)
        + (if r.otc.isSome then 1 else 0)
        + (if r.vwap.isSome then 1 else 0) := by
obtain ⟨ts, o, hi, lo, cl, vo, tr, ot, vw⟩ := r
cases tr <;> cases ot <;> cases vw <;>
  simp [serializeRecord]

/-! ## C6: output path and append-only file handling -/

/-- C6: the writer's path is output_root, then the symbol, then the
granularity rendered as its lowercase name with extension csv; the file
is opened create-if-absent and append-only, so a rerun leaves every row
already in the file unchanged at its position and only appends after
them. -/
theorem save_path_and_append_only (output_dir ticker : String)
    (ts : Timespan) (existing : Option (List (List String)))
    (fetch : FetchScript) (req : AggregateRequest) (fuel : Nat) :
    filePath output_dir ticker ts =
      output_dir ++ "/" ++ ticker ++ "/" ++ ts.display ++ ".csv" ∧
    (Timespan.display .Second = "second" ∧
     Timespan.display .Minute = "minute" ∧
     Timespan.display .Hour = "hour" ∧ Timespan.display .Day = "day" ∧
     Timespan.display .Week = "week" ∧
     Timespan.display .Month = "month" ∧
     Timespan.display .Quarter = "quarter" ∧
     Timespan.display .Year = "year") ∧
    create_or_open_file none = [] ∧
    (save_aggregates_to_disk existing fetch req fuel).1 =
      create_or_open_file existing ++
        (saveLoop fetch ⟨req, none, false⟩ 0 fuel).rows ∧
    (save_aggregates_to_disk existing fetch req fuel).1.take
        (create_or_open_file existing).length =
      create_or_open_file existing := by
refine ⟨rfl, ⟨rfl, rfl, rfl, rfl, rfl, rfl, rfl, rfl⟩, rfl, rfl, ?_⟩
simp [save_aggregates_to_disk, List.take_left]

/-! ## C7: per-symbol failure isolation in the orchestrator -/

/-- The first component of a processed ticker is always that ticker:
whatever happens to the symbol, `fetch_data` records an outcome for it
and moves on. -/
theorem processTicker_fst (fetchOf : String → FetchScript) (cfg : Config)
    (fuel : Nat) (t : String) :
    (processTicker fetchOf cfg fuel t).1 = t := by
rcases h : buildFetchRequest cfg t with e | request
· simp [processTicker, h]
· rcases h2 : (saveLoop (fetchOf t) ⟨request, none, false⟩ 0 fuel).outcome
    with e | u <;> simp [processTicker, h, h2]

/-- C7: `fetch_data` never fails as a whole — it is a total function that
produces one outcome per configured symbol, in order, whatever every
fetcher does; and the outcome of every symbol other than a failing one is
unchanged when that one symbol's fetch behaviour changes (failures are
swallowed inside the symbol's own pipeline). -/
theorem fetch_data_isolates_failures
    (fetchOf fetchOf2 : String → FetchScript) (cfg : Config) (fuel : Nat)
    (s : String)
    (hagree : ∀ t2, t2 ≠ s → fetchOf t2 = fetchOf2 t2) :
    (fetch_data fetchOf cfg fuel).map Prod.fst = cfg.tickers ∧
    ∀ t2, t2 ≠ s →
      processTicker fetchOf cfg fuel t2 =
        processTicker fetchOf2 cfg fuel t2 := by
constructor
· simp [fetch_data, List.map_map, Function.comp_def, processTicker_fst]
· intro t2 ht2
  simp only [processTicker, hagree t2 ht2]

/-- Concrete page for the C7 example: a single terminal page. -/
def c7Page : AggregateResponse :=
⟨"X", true, 1, "req-7", 1, "OK", [exRecord], none⟩

/-- Scripted behaviour in which every symbol succeeds. -/
def c7FetchGood : String → FetchScript := fun _ _ => .ok c7Page

/-- Scripted behaviour in which only the symbol MSFT fails. -/
def c7FetchBad : String → FetchScript := fun t2 _ =>
if t2 = "MSFT" then .error (.SendRequest "timeout") else .ok c7Page

/-- Concrete configuration for the C7 example. -/
def c7Config : Config :=
⟨["AAPL", "MSFT", "GOOG"], .Minute, "/data", 0, 86400000, 100⟩

/-- Witness for C7: with three symbols of which MSFT fails, the run still
produces an outcome for all three symbols in order, and the other two
symbols behave exactly as in the all-good run. -/
theorem fetch_data_isolates_failures_witness :
    (∀ t2, t2 ≠ "MSFT" → c7FetchBad t2 = c7FetchGood t2) ∧
    ((fetch_data c7FetchBad c7Config 3).map Prod.fst = c7Config.tickers ∧
     ∀ t2, t2 ≠ "MSFT" →
       processTicker c7FetchBad c7Config 3 t2 =
         processTicker c7FetchGood c7Config 3 t2) :=
⟨fun t2 h => by funext k; simp [c7FetchBad, c7FetchGood, h],
 fetch_data_isolates_failures c7FetchBad c7FetchGood c7Config 3 "MSFT"
   (fun t2 h => by funext k; simp [c7FetchBad, c7FetchGood, h])⟩

/-! ## C8: the page-count estimate behind the progress bar -/

/-- Truncating division composes over natural divisors: dividing toward
zero by m and then by n is dividing toward zero by m times n. -/
theorem tdiv_tdiv_ofNat (a : Int) (m n : Nat) :
    (a.tdiv (m : Int)).tdiv (n : Int) = a.tdiv ((m * n : Nat) : Int) := by
cases a with
| ofNat p =>
  show Int.ofNat (p / m / n) = Int.ofNat (p / (m * n))
  rw [Nat.div_div_eq_div_mul]
| negSucc p =>
  show (-Int.ofNat (p.succ / m)).tdiv (Int.ofNat n) =
    -Int.ofNat (p.succ / (m * n))
  rw [Int.neg_tdiv]
  rw [show (Int.ofNat (p.succ / m)).tdiv (Int.ofNat n) =
    Int.ofNat (p.succ / m / n) from rfl]
  rw [Nat.div_div_eq_div_mul]

/-- Milliseconds to seconds, then seconds to minutes, is milliseconds to
minutes. -/
theorem tdiv_1000_60 (d : Int) : (d.tdiv 1000).tdiv 60 = d.tdiv 60000 := by
have h := tdiv_tdiv_ofNat d 1000 60
norm_num at h
exact h

/-- Milliseconds to seconds, then seconds to hours, is milliseconds to
hours. -/
theorem tdiv_1000_3600 (d : Int) :
    (d.tdiv 1000).tdiv 3600 = d.tdiv 3600000 := by
have h := tdiv_tdiv_ofNat d 1000 3600
norm_num at h
exact h

/-- Milliseconds to seconds, then seconds to days, is milliseconds to
days. -/
theorem tdiv_1000_86400 (d : Int) :
    (d.tdiv 1000).tdiv 86400 = d.tdiv 86400000 := by
have h := tdiv_tdiv_ofNat d 1000 86400
norm_num at h
exact h

/-- Milliseconds to days, then days to weeks, is milliseconds to weeks. -/
theorem tdiv_86400000_7 (d : Int) :
    (d.tdiv 86400000).tdiv 7 = d.tdiv 604800000 := by
have h := tdiv_tdiv_ofNat d 86400000 7
norm_num at h
exact h

/-- C8: for every range and positive page limit, `num_chunks` — the
progress-bar page estimate — equals the spec's formula: the count of
granularity-sized intervals in the range (seconds, minutes, hours, days
or weeks; week-count over 4 for month, week-count over 12 for quarter,
day-count over 365 for year) divided by the page limit with integer
division. -/
theorem num_chunks_matches_spec (ts : Timespan) (f t : Int) (limit : Nat)
    (hl : 0 < limit) :
    num_chunks ts f t limit = spec_page_estimate ts f t limit := by
cases ts <;>
  simp only [num_chunks, spec_page_estimate, spec_interval_count,
    duration_num_seconds, duration_num_minutes, duration_num_hours,
    duration_num_days, duration_num_weeks, tdiv_1000_60, tdiv_1000_3600,
    tdiv_1000_86400, tdiv_86400000_7]

/-- Witness for C8 at the month granularity over a one-year range with
page limit 100. -/
theorem num_chunks_matches_spec_witness :
    0 < 100 ∧
    num_chunks .Month 0 31536000000 100 =
      spec_page_estimate .Month 0 31536000000 100 :=
⟨by norm_num, num_chunks_matches_spec .Month 0 31536000000 100
  (by norm_num)⟩

/-! ## C10: an empty successful page -/

/-- C10: when a poll of the stream returns a successful page with an
empty record list, the save loop appends no row and performs no flush for
it, still increments the progress counter once, and continues consuming
the stream from the successor state instead of terminating. -/
theorem save_loop_empty_page_step (fetch : FetchScript) (s : UnfoldState)
    (k fuel : Nat) (page : AggregateResponse)
    (hfin : s.final_page = false)
    (hk : fetch k = .ok page)
    (hempty : page.results = []) :
    saveLoop fetch s k (fuel + 1) =
      ⟨(saveLoop fetch ⟨nextRequest s, page.next_url, page.next_url.isNone⟩
          (k + 1) fuel).rows,
       (saveLoop fetch ⟨nextRequest s, page.next_url, page.next_url.isNone⟩
          (k + 1) fuel).flushes,
       (saveLoop fetch ⟨nextRequest s, page.next_url, page.next_url.isNone⟩
          (k + 1) fuel).progress + 1,
       (nextRequest s).next_url ::
         (saveLoop fetch ⟨nextRequest s, page.next_url, page.next_url.isNone⟩
            (k + 1) fuel).calls,
       (saveLoop fetch ⟨nextRequest s, page.next_url, page.next_url.isNone⟩
          (k + 1) fuel).outcome⟩ := by
rw [saveLoop_succ]
simp only [getAggregatesStep, hfin, Bool.false_eq_true, if_false, hk,
  hempty]
cases hnu : page.next_url with
| some u => simp [hnu]
| none => simp [hnu]

/-- Concrete empty page (with a continuation) for the C10 example. -/
def c10EmptyPage : AggregateResponse :=
⟨"AAPL", true, 0, "req-10", 0, "OK", [], some "https://next/e"⟩

/-- Concrete scripted fetcher for the C10 example: an empty page first,
then a terminal non-empty page. -/
def c10Fetch : FetchScript := fun k =>
if k = 0 then .ok c10EmptyPage else .ok c7Page

/-- Witness for C10 at a concrete fetcher, state and fuel. -/
theorem save_loop_empty_page_step_witness :
    (⟨exRequest, none, false⟩ : UnfoldState).final_page = false ∧
    c10Fetch 0 = .ok c10EmptyPage ∧ c10EmptyPage.results = [] ∧
    saveLoop c10Fetch ⟨exRequest, none, false⟩ 0 (2 + 1) =
      ⟨(saveLoop c10Fetch ⟨nextRequest ⟨exRequest, none, false⟩,
          c10EmptyPage.next_url, c10EmptyPage.next_url.isNone⟩ 1 2).rows,
       (saveLoop c10Fetch ⟨nextRequest ⟨exRequest, none, false⟩,
          c10EmptyPage.next_url, c10EmptyPage.next_url.isNone⟩ 1 2).flushes,
       (saveLoop c10Fetch ⟨nextRequest ⟨exRequest, none, false⟩,
          c10EmptyPage.next_url, c10EmptyPage.next_url.isNone⟩ 1 2).progress
         + 1,
       (nextRequest ⟨exRequest, none, false⟩).next_url ::
         (saveLoop c10Fetch ⟨nextRequest ⟨exRequest, none, false⟩,
            c10EmptyPage.next_url, c10EmptyPage.next_url.isNone⟩ 1 2).calls,
       (saveLoop c10Fetch ⟨nextRequest ⟨exRequest, none, false⟩,
          c10EmptyPage.next_url, c10EmptyPage.next_url.isNone⟩ 1 2).outcome⟩ :=
⟨rfl, rfl, rfl,
 save_loop_empty_page_step c10Fetch ⟨exRequest, none, false⟩ 0 2
   c10EmptyPage rfl rfl rfl⟩

end PolygonData
